import Mathlib

/-!
Verification of the Guardian Agent orchestration script (`agent.py`).

The script is shallowly embedded: the filesystem cell holding
`.guardian_state.json` is an `Option String` (file content, or `none` when the
file is missing), Python exceptions become `Except PyErr`, Python `dict`s of
JSON-shaped data become association lists over `JVal`, and the external
libraries the script calls (Python's `json` module, pydantic's
`model_validate`, Portia's plan-run API) are modelled at their documented
input/output behaviour.  Functions keep the names of the Python functions they
embed.
-/

set_option autoImplicit false

namespace Guardian

/-- JSON-shaped Python values: the values that can appear in the state file and
in the structured final output of a plan run.  Numbers are modelled as
integers (the script never manipulates JSON float literals locally). -/
inductive JVal where
  | null
  | bool (b : Bool)
  | num (n : Int)
  | str (s : String)
  | arr (elems : List JVal)
  | obj (entries : List (String × JVal))

/-- Python exceptions that the embedded code paths can raise. -/
inductive PyErr where
  | keyError
  | valueError
  | ioError
  | attributeError
  | jsonDecodeError
  | validationError
  deriving DecidableEq

/-- Lookup in a Python dict modelled as an association list (first binding of
the key wins; Python dicts have unique keys). -/
def lookupKey {α : Type} (k : String) : List (String × α) → Option α
  | [] => none
  | kv :: rest => if kv.1 = k then some kv.2 else lookupKey k rest

/-- Python `str.strip()` restricted to ASCII whitespace. -/
def isPyWs (c : Char) : Bool :=
  c = ' ' || c = '\t' || c = '\n' || c = '\r'

def pyStrip (s : String) : String :=
  String.mk (((s.data.dropWhile isPyWs).reverse.dropWhile isPyWs).reverse)

/-- Python `sep.join(xs)`. -/
def pyJoin (sep : String) : List String → String
  | [] => ""
  | x :: rest => rest.foldl (fun acc y => acc ++ sep ++ y) x

/-- Python truthiness of `os.getenv(..)`: falsy iff the variable is unset
(`None`) or set to the empty string. -/
def pyFalsyEnv : Option String → Bool
  | none => true
  | some s => s = ""

/-! ## State store (`get_guardian_state` / `save_guardian_state`)

The body of `get_guardian_state` sits inside `try/except`; we embed the body
as an `Except PyErr` computation (the places where `json.loads` or `.get` can
raise are explicit) and the function itself as the catch that maps any raised
error to the empty string.  `loads` is the behaviour of Python's `json.loads`
on already-stripped content, passed in as a parameter (`none` = the library
raised `JSONDecodeError`); an executable model `jsonLoads` is given below. -/

def get_guardian_state_body (loads : String → Option JVal)
    (fs : Option String) : Except PyErr JVal :=
  match fs with
  | none => Except.ok (JVal.str "")
  | some content =>
    let c := pyStrip content
    if c = "" then Except.ok (JVal.str "")
    else
      match loads c with
      | none => Except.error PyErr.jsonDecodeError
      | some (JVal.obj kvs) => Except.ok ((lookupKey "last_ts" kvs).getD (JVal.str ""))
      | some _ => Except.error PyErr.attributeError

/-- `get_guardian_state`: read the state file and return `last_ts`
(the empty string if missing/invalid); every raised error is caught and
mapped to the empty string. -/
def get_guardian_state (loads : String → Option JVal) (fs : Option String) : JVal :=
  match get_guardian_state_body loads fs with
  | Except.ok v => v
  | Except.error _ => JVal.str ""

/-- Body of `save_guardian_state` before its `except` clause: `dumps` is the
behaviour of `json.dump(.., indent=2)`, `writeOk` says whether the file write
succeeds (a failed write raises `IOError` inside the `try`).  The result is
the new content of the filesystem cell. -/
def save_guardian_state_body (dumps : List (String × JVal) → String)
    (writeOk : Bool) (ts : String) : Except PyErr (Option String) :=
  if writeOk then Except.ok (some (dumps [("last_ts", JVal.str ts)]))
  else Except.error PyErr.ioError

/-- `save_guardian_state`: write `{"last_ts": ts}`; a write failure is caught
(logged in the script) and the previous file content is left as it was. -/
def save_guardian_state (dumps : List (String × JVal) → String)
    (writeOk : Bool) (ts : String) (fs : Option String) : Option String :=
  match save_guardian_state_body dumps writeOk ts with
  | Except.ok fs' => fs'
  | Except.error _ => fs

/-! ## Executable model of the `json` library

`jsonDumps` models `json.dump(data, f, indent=2)` on flat objects (the only
shape the script ever writes), with the short escape sequences; `jsonLoads` is
a recursive-descent parser for the JSON fragment the state file can contain.
These instantiate the `loads`/`dumps` parameters in concrete evaluations. -/

def jsonEscapeChar (c : Char) : List Char :=
  if c = '"' then ['\\', '"']
  else if c = '\\' then ['\\', '\\']
  else if c = '\n' then ['\\', 'n']
  else if c = '\t' then ['\\', 't']
  else if c = '\r' then ['\\', 'r']
  else [c]

def jsonDumpStr (s : String) : String :=
  String.mk ('"' :: (s.data.map jsonEscapeChar).flatten ++ ['"'])

/-- Serialisation of a scalar JSON value. -/
def jsonDumpScalar : JVal → String
  | JVal.null => "null"
  | JVal.bool b => cond b "true" "false"
  | JVal.num n => toString n
  | JVal.str s => jsonDumpStr s
  | JVal.arr _ => "[]"
  | JVal.obj _ => "\x7b\x7d"

/-- `json.dump(kvs, f, indent=2)` for a flat object of scalars. -/
def jsonDumps (kvs : List (String × JVal)) : String :=
  match kvs with
  | [] => "\x7b\x7d"
  | _ =>
    "\x7b\n  " ++
      pyJoin ",\n  " (kvs.map (fun kv => jsonDumpStr kv.1 ++ ": " ++ jsonDumpScalar kv.2)) ++
      "\n\x7d"

def skipWs : List Char → List Char
  | [] => []
  | c :: rest => if isPyWs c then skipWs rest else c :: rest

/-- Parse the body of a JSON string (after the opening quote), handling the
short escape sequences; returns the decoded characters and the remainder. -/
def parseStringBody : Nat → List Char → Option (List Char × List Char)
  | 0, _ => none
  | _, [] => none
  | fuel + 1, c :: rest =>
    if c = '"' then some ([], rest)
    else if c = '\\' then
      match rest with
      | [] => none
      | e :: rest2 =>
        let dec : Option Char :=
          if e = '"' then some '"'
          else if e = '\\' then some '\\'
          else if e = 'n' then some '\n'
          else if e = 't' then some '\t'
          else if e = 'r' then some '\r'
          else none
        match dec with
        | none => none
        | some d => (parseStringBody fuel rest2).map (fun p => (d :: p.1, p.2))
    else (parseStringBody fuel rest).map (fun p => (c :: p.1, p.2))

def digitsToNat (ds : List Char) : Nat :=
  ds.foldl (fun n c => n * 10 + (c.toNat - 48)) 0

mutual

def parseValue : Nat → List Char → Option (JVal × List Char)
  | 0, _ => none
  | fuel + 1, cs =>
    match skipWs cs with
    | [] => none
    | c :: rest =>
      if c = '"' then
        (parseStringBody (fuel + 1) rest).map (fun p => (JVal.str (String.mk p.1), p.2))
      else if c = '\x7b' then
        match skipWs rest with
        | '\x7d' :: rest2 => some (JVal.obj [], rest2)
        | rest2 => (parseEntries fuel rest2).map (fun p => (JVal.obj p.1, p.2))
      else if c = '[' then
        match skipWs rest with
        | ']' :: rest2 => some (JVal.arr [], rest2)
        | rest2 => (parseElems fuel rest2).map (fun p => (JVal.arr p.1, p.2))
      else if c = 'n' then
        if ['u', 'l', 'l'].isPrefixOf rest then some (JVal.null, rest.drop 3) else none
      else if c = 't' then
        if ['r', 'u', 'e'].isPrefixOf rest then some (JVal.bool true, rest.drop 3) else none
      else if c = 'f' then
        if ['a', 'l', 's', 'e'].isPrefixOf rest then some (JVal.bool false, rest.drop 4) else none
      else if c = '-' then
        match rest.span Char.isDigit with
        | ([], _) => none
        | (ds, rest2) => some (JVal.num (-(digitsToNat ds : Int)), rest2)
      else if c.isDigit then
        match (c :: rest).span Char.isDigit with
        | (ds, rest2) => some (JVal.num (digitsToNat ds : Int), rest2)
      else none

def parseEntries : Nat → List Char → Option (List (String × JVal) × List Char)
  | 0, _ => none
  | fuel + 1, cs =>
    match skipWs cs with
    | '"' :: rest =>
      match parseStringBody (fuel + 1) rest with
      | none => none
      | some (key, rest2) =>
        match skipWs rest2 with
        | ':' :: rest3 =>
          match parseValue fuel rest3 with
          | none => none
          | some (v, rest4) =>
            match skipWs rest4 with
            | ',' :: rest5 =>
              (parseEntries fuel rest5).map (fun p => ((String.mk key, v) :: p.1, p.2))
            | '\x7d' :: rest5 => some ([(String.mk key, v)], rest5)
            | _ => none
        | _ => none
    | _ => none

def parseElems : Nat → List Char → Option (List JVal × List Char)
  | 0, _ => none
  | fuel + 1, cs =>
    match parseValue fuel cs with
    | none => none
    | some (v, rest) =>
      match skipWs rest with
      | ',' :: rest2 => (parseElems fuel rest2).map (fun p => (v :: p.1, p.2))
      | ']' :: rest2 => some ([v], rest2)
      | _ => none

end

/-- Executable model of `json.loads` on the state-file JSON fragment. -/
def jsonLoads (s : String) : Option JVal :=
  match parseValue (s.length + 1) s.data with
  | none => none
  | some (v, rest) => if skipWs rest = [] then some v else none

/-! ## `filter_new_messages`

Slack messages are dicts; the fields the function touches (`ts`, `user`,
`text`) are strings in Slack's schema, so a message is modelled as a
string-valued dict.  Python `float(..)` is modelled by a parameter
`pyFloat : String → Option F` into an arbitrary linearly ordered type
(`none` = `ValueError`); a missing `"ts"` key is a `KeyError`.  Both
propagate out of `filter_new_messages`, hence the `Except` result. -/

def Msg : Type := List (String × String)

/-- The rendered line `f'[{m.get("user","?")}] {m.get("text","")}'`. -/
def renderMsg (m : Msg) : String :=
  "[" ++ ((lookupKey "user" m).getD "?") ++ "] " ++ ((lookupKey "text" m).getD "")

structure FilterResult where
  list : List String
  str : String
  new_messages : List Msg

/-- The dict `{"list": texts, "str": "\n".join(texts), "new_messages": ..}`
returned by `filter_new_messages`. -/
def mkFilterResult (new_messages : List Msg) : FilterResult :=
  let texts := new_messages.map renderMsg
  { list := texts, str := pyJoin "\n" texts, new_messages := new_messages }

section FloatModel

variable {F : Type} [LinearOrder F]

/-- The float of a message's `"ts"` entry, when present and parseable. -/
def tsFloat (pyFloat : String → Option F) (m : Msg) : Option F :=
  (lookupKey "ts" m).bind pyFloat

/-- The list comprehension `[m for m in slack_messages if float(m["ts"]) > last_ts_float]`,
raising at the first message whose `"ts"` is missing or unparseable. -/
def collectNew (pyFloat : String → Option F) (lastF : F) :
    List Msg → Except PyErr (List Msg)
  | [] => Except.ok []
  | m :: ms =>
    match lookupKey "ts" m with
    | none => Except.error PyErr.keyError
    | some s =>
      match pyFloat s with
      | none => Except.error PyErr.valueError
      | some f =>
        match collectNew pyFloat lastF ms with
        | Except.error e => Except.error e
        | Except.ok rest => Except.ok (if lastF < f then m :: rest else rest)

/-- `filter_new_messages(slack_messages, state_last_ts)`. -/
def filter_new_messages (pyFloat : String → Option F)
    (slack_messages : List Msg) (state_last_ts : String) :
    Except PyErr FilterResult :=
  if state_last_ts = "" then Except.ok (mkFilterResult slack_messages)
  else
    match pyFloat state_last_ts with
    | none => Except.error PyErr.valueError
    | some lastF =>
      match collectNew pyFloat lastF slack_messages with
      | Except.error e => Except.error e
      | Except.ok new_messages => Except.ok (mkFilterResult new_messages)

end FloatModel

/-! ## Structured output schema and the validation shim

`GuardianRunOutput` is the pydantic model; `model_validate` models pydantic
v2 validation in its default (lax) mode on JSON-shaped input: `int` fields
accept integers and integer strings (not bools, not null), `Optional[str]`
accepts null and strings, `str` accepts strings; `last_ts` defaults to null
and `safety_status` to "completed" when the key is absent; anything else
raises a `ValidationError`. -/

structure GuardianRunOutput where
  scanned_count : Int
  alerted_count : Int
  last_ts : Option String
  safety_status : String
  deriving DecidableEq

def decDigitsOpt (ds : List Char) : Option Nat :=
  if ds.isEmpty then none
  else if ds.all Char.isDigit then some (digitsToNat ds) else none

/-- Python `int(s)` on a decimal literal with an optional sign. -/
def pyIntOfString (s : String) : Option Int :=
  match s.data with
  | '-' :: ds => (decDigitsOpt ds).map (fun n => -(n : Int))
  | '+' :: ds => (decDigitsOpt ds).map (fun n => (n : Int))
  | ds => (decDigitsOpt ds).map (fun n => (n : Int))

def coerceInt : JVal → Except PyErr Int
  | JVal.num n => Except.ok n
  | JVal.str s =>
    match pyIntOfString s with
    | some n => Except.ok n
    | none => Except.error PyErr.validationError
  | _ => Except.error PyErr.validationError

def coerceOptStr : JVal → Except PyErr (Option String)
  | JVal.null => Except.ok none
  | JVal.str s => Except.ok (some s)
  | _ => Except.error PyErr.validationError

def coerceStr : JVal → Except PyErr String
  | JVal.str s => Except.ok s
  | _ => Except.error PyErr.validationError

/-- `GuardianRunOutput.model_validate(raw_output)` on a dict. -/
def model_validate (d : List (String × JVal)) : Except PyErr GuardianRunOutput := do
  let sc ←
    match lookupKey "scanned_count" d with
    | none => Except.error PyErr.validationError
    | some v => coerceInt v
  let ac ←
    match lookupKey "alerted_count" d with
    | none => Except.error PyErr.validationError
    | some v => coerceInt v
  let lt ←
    match lookupKey "last_ts" d with
    | none => Except.ok none
    | some v => coerceOptStr v
  let ss ←
    match lookupKey "safety_status" d with
    | none => Except.ok "completed"
    | some v => coerceStr v
  Except.ok ⟨sc, ac, lt, ss⟩

/-- Python `dict.setdefault`: insert (at the end, preserving insertion order)
only when the key is absent. -/
def setdefault (d : List (String × JVal)) (k : String) (v : JVal) :
    List (String × JVal) :=
  if (lookupKey k d).isSome then d else d ++ [(k, v)]

/-- The four `raw_output.setdefault(..)` lines of `run_agent`. -/
def fillDefaults (d : List (String × JVal)) : List (String × JVal) :=
  setdefault
    (setdefault
      (setdefault
        (setdefault d "scanned_count" (JVal.num 0))
        "alerted_count" (JVal.num 0))
      "last_ts" JVal.null)
    "safety_status" (JVal.str "failed")

/-- Python `x or 0` applied to `getattr(run.outputs, .., None)`
(best-effort counts; `None` otherwise). -/
def pyOrZero : Option Int → Int
  | none => 0
  | some n => if n = 0 then 0 else n

def isDict : JVal → Bool
  | JVal.obj _ => true
  | _ => false

/-- The dict rebuilt by the `not isinstance(raw_output, dict)` branch. -/
def fallbackDict (outScanned outAlerted : Option Int) : List (String × JVal) :=
  [("scanned_count", JVal.num (pyOrZero outScanned)),
   ("alerted_count", JVal.num (pyOrZero outAlerted)),
   ("last_ts", JVal.null),
   ("safety_status", JVal.str "failed")]

/-- The dict the shim hands to `setdefault`/`model_validate`: the raw output
itself when it is a dict, the rebuilt fallback otherwise. -/
def coerceRaw (raw : JVal) (outScanned outAlerted : Option Int) :
    List (String × JVal) :=
  match raw with
  | JVal.obj kvs => kvs
  | _ => fallbackDict outScanned outAlerted

/-- The `result.safety_status = "completed"` assignment after a successful
`model_validate`; a validation error propagates. -/
def forceCompleted (x : Except PyErr GuardianRunOutput) :
    Except PyErr GuardianRunOutput :=
  match x with
  | Except.error e => Except.error e
  | Except.ok r => Except.ok { r with safety_status := "completed" }

/-- The "Safe Validation Shim" of `run_agent`: coerce the raw final output to
a dict, fill the missing keys, run pydantic validation, then force
`safety_status` to "completed".  `outScanned`/`outAlerted` model
`getattr(run.outputs, "scanned_count"/"alerted_count", None)`. -/
def validateShim (raw : JVal) (outScanned outAlerted : Option Int) :
    Except PyErr GuardianRunOutput :=
  forceCompleted (model_validate (fillDefaults (coerceRaw raw outScanned outAlerted)))

/-! ## The run flow (`run_agent` and the `__main__` block) -/

inductive PlanRunState where
  | NOT_STARTED
  | IN_PROGRESS
  | NEED_CLARIFICATION
  | READY_TO_RESUME
  | COMPLETE
  | FAILED
  deriving DecidableEq

/-- The exceptions `run_agent` (and the module top level) can raise, by
raise site. -/
inductive AgentError where
  | missingApiKey
  | missingEnv
  | planFailed
  | validationError
  deriving DecidableEq

/-- Calls made to the external Portia service, in order. -/
inductive ExtCall where
  | planCall
  | runPlanCall
  | waitCall
  deriving DecidableEq

/-- The module-top-level check: `if not os.getenv("PORTIA_API_KEY"): raise`.
It runs at import time, before any other work. -/
def moduleInit (apiKey : Option String) : Except AgentError Unit :=
  if pyFalsyEnv apiKey then Except.error AgentError.missingApiKey else Except.ok ()

/-- The terminal state of the plan run: `wait_for_ready` is consulted exactly
when `run_plan` ends in `NEED_CLARIFICATION`. -/
def resolveRunState (runSt waitSt : PlanRunState) : PlanRunState :=
  if runSt = PlanRunState.NEED_CLARIFICATION then waitSt else runSt

/-- `run_agent`, with the external service interaction abstracted into inputs:
`runSt` is the state `run_plan` returns, `waitSt` the state after
`wait_for_ready`, `raw` the raw final output, `outScanned`/`outAlerted` the
best-effort attributes.  The first component records which external calls
were made before the function returned or raised. -/
def run_agent_trace (loads : String → Option JVal)
    (parentEmail channelId : Option String) (fs : Option String)
    (runSt waitSt : PlanRunState) (raw : JVal)
    (outScanned outAlerted : Option Int) :
    List ExtCall × Except AgentError GuardianRunOutput :=
  if pyFalsyEnv parentEmail || pyFalsyEnv channelId then
    ([], Except.error AgentError.missingEnv)
  else
    let _current_state := get_guardian_state loads fs
    let calls := [ExtCall.planCall, ExtCall.runPlanCall] ++
      (if runSt = PlanRunState.NEED_CLARIFICATION then [ExtCall.waitCall] else [])
    if resolveRunState runSt waitSt ≠ PlanRunState.COMPLETE then
      (calls, Except.error AgentError.planFailed)
    else
      (calls,
        match validateShim raw outScanned outAlerted with
        | Except.error _ => Except.error AgentError.validationError
        | Except.ok r => Except.ok r)

def run_agent (loads : String → Option JVal)
    (parentEmail channelId : Option String) (fs : Option String)
    (runSt waitSt : PlanRunState) (raw : JVal)
    (outScanned outAlerted : Option Int) :
    Except AgentError GuardianRunOutput :=
  (run_agent_trace loads parentEmail channelId fs runSt waitSt raw
    outScanned outAlerted).2

/-- The state-saving step of the `__main__` block after a successful run:
`if out.last_ts: save_guardian_state(out.last_ts)` (the verification re-read
that follows only reads the file).  Returns the new file content. -/
def main_save_state (dumps : List (String × JVal) → String) (writeOk : Bool)
    (out : GuardianRunOutput) (fs : Option String) : Option String :=
  match out.last_ts with
  | none => fs
  | some ts => if ts = "" then fs else save_guardian_state dumps writeOk ts fs

/-- A message is kept by the filter when its `"ts"` entry exists, parses, and
is strictly above the checkpoint. -/
def newerThan {F : Type} [LinearOrder F] (pyFloat : String → Option F)
    (lastF : F) (m : Msg) : Bool :=
  match tsFloat pyFloat m with
  | some f => decide (lastF < f)
  | none => false

/-! ## Helper lemmas -/

theorem lookupKey_append_left {α : Type} (k : String) (d e : List (String × α))
    (h : (lookupKey k d).isSome) : lookupKey k (d ++ e) = lookupKey k d := by
  induction d with
  | nil => simp [lookupKey] at h
  | cons kv rest ih =>
    by_cases hk : kv.1 = k
    · simp [lookupKey, hk]
    · simp only [lookupKey, hk, if_false, List.cons_append] at h ⊢
      exact ih h

theorem lookupKey_append_right {α : Type} (k : String) (d e : List (String × α))
    (h : lookupKey k d = none) : lookupKey k (d ++ e) = lookupKey k e := by
  induction d with
  | nil => rfl
  | cons kv rest ih =>
    by_cases hk : kv.1 = k
    · simp [lookupKey, hk] at h
    · simp only [lookupKey, hk, if_false, List.cons_append] at h ⊢
      exact ih h

theorem lookupKey_setdefault_self (d : List (String × JVal)) (k : String) (v : JVal) :
    lookupKey k (setdefault d k v) = some ((lookupKey k d).getD v) := by
  rcases hd : lookupKey k d with _ | w
  · rw [setdefault, hd]
    simp only [Option.isSome_none, Bool.false_eq_true, if_false]
    rw [lookupKey_append_right k d _ hd]
    simp [lookupKey]
  · rw [setdefault, hd]
    simp [hd]

theorem lookupKey_setdefault_other (d : List (String × JVal)) (k k' : String)
    (v : JVal) (h : k ≠ k') : lookupKey k (setdefault d k' v) = lookupKey k d := by
  rcases hd : lookupKey k' d with _ | w
  · rw [setdefault, hd]
    simp only [Option.isSome_none, Bool.false_eq_true, if_false]
    rcases hk : lookupKey k d with _ | u
    · rw [lookupKey_append_right k d _ hk]
      simp [lookupKey, Ne.symm h]
    · rw [lookupKey_append_left k d _ (by simp [hk])]
      exact hk
  · rw [setdefault, hd]
    simp

theorem collectNew_eq_filter {F : Type} [LinearOrder F] (pyFloat : String → Option F)
    (lastF : F) (msgs : List Msg)
    (h : ∀ m ∈ msgs, (tsFloat pyFloat m).isSome) :
    collectNew pyFloat lastF msgs =
      Except.ok (msgs.filter (newerThan pyFloat lastF)) := by
  induction msgs with
  | nil => rfl
  | cons m ms ih =>
    have hm : (tsFloat pyFloat m).isSome := h m (by simp)
    have hms : ∀ x ∈ ms, (tsFloat pyFloat x).isSome := fun x hx => h x (by simp [hx])
    rcases hts : lookupKey "ts" m with _ | s
    · rw [tsFloat, hts] at hm
      simp at hm
    · rcases hf : pyFloat s with _ | f
      · rw [tsFloat, hts] at hm
        simp [hf] at hm
      · have htsf : tsFloat pyFloat m = some f := by rw [tsFloat, hts]; exact hf
        by_cases hlt : lastF < f
        · simp [collectNew, hts, hf, ih hms, List.filter_cons, newerThan, htsf, hlt]
        · simp [collectNew, hts, hf, ih hms, List.filter_cons, newerThan, htsf, hlt]

/-! ## Claims -/

/-- Claim C2: whatever the state of the filesystem — state file missing, file
present with (strip-)empty content, or content on which `json.loads` fails —
`get_guardian_state` returns the empty string; the `except` clause it is
wrapped in maps every raised error to the empty string, so it never raises. -/
theorem get_guardian_state_defaults_empty (loads : String → Option JVal) :
    (get_guardian_state loads none = JVal.str "") ∧
    (∀ content : String, pyStrip content = "" →
      get_guardian_state loads (some content) = JVal.str "") ∧
    (∀ content : String, loads (pyStrip content) = none →
      get_guardian_state loads (some content) = JVal.str "") := by
  refine ⟨rfl, ?_, ?_⟩
  · intro content h
    simp [get_guardian_state, get_guardian_state_body, h]
  · intro content h
    by_cases hc : pyStrip content = ""
    · simp [get_guardian_state, get_guardian_state_body, hc]
    · simp [get_guardian_state, get_guardian_state_body, hc, h]

/-- Concrete run of claim C2's theorem: a file holding content that is not
valid JSON yields the empty string. -/
theorem get_guardian_state_defaults_empty_witness :
    get_guardian_state jsonLoads (some "not json") = JVal.str "" :=
  (get_guardian_state_defaults_empty jsonLoads).2.2 "not json" rfl

/-- Claim C4: saving a timestamp and then loading the state round-trips the
value, for any serialisation on which the json library is inverse (the dumped
object does not strip to the empty string and parses back to itself) and a
successful write. -/
theorem save_load_round_trip (loads : String → Option JVal)
    (dumps : List (String × JVal) → String) (ts : String) (fs : Option String)
    (hne : pyStrip (dumps [("last_ts", JVal.str ts)]) ≠ "")
    (hinv : loads (pyStrip (dumps [("last_ts", JVal.str ts)])) =
      some (JVal.obj [("last_ts", JVal.str ts)])) :
    get_guardian_state loads (save_guardian_state dumps true ts fs) = JVal.str ts := by
  simp [save_guardian_state, save_guardian_state_body, get_guardian_state,
    get_guardian_state_body, hne, hinv, lookupKey]

/-- Concrete run of claim C4's theorem with the executable json model. -/
theorem save_load_round_trip_witness :
    get_guardian_state jsonLoads (save_guardian_state jsonDumps true "123.45" none) =
      JVal.str "123.45" :=
  save_load_round_trip jsonLoads jsonDumps "123.45" none (by decide) rfl

/-- Claim C7: `save_guardian_state ts` writes `{"last_ts": ts}` (its json
serialisation) to the state file, and a failed write is caught: the function
returns normally and the previous file content is untouched. -/
theorem save_guardian_state_spec (dumps : List (String × JVal) → String)
    (writeOk : Bool) (ts : String) (fs : Option String) :
    (writeOk = true →
      save_guardian_state dumps writeOk ts fs =
        some (dumps [("last_ts", JVal.str ts)])) ∧
    (writeOk = false → save_guardian_state dumps writeOk ts fs = fs) := by
  constructor <;> intro h <;> subst h <;>
    simp [save_guardian_state, save_guardian_state_body]

/-- Concrete run of claim C7's theorem: both the successful and the failing
write, on the executable json model. -/
theorem save_guardian_state_spec_witness :
    save_guardian_state jsonDumps true "9.9" none =
      some (jsonDumps [("last_ts", JVal.str "9.9")]) ∧
    save_guardian_state jsonDumps false "9.9" (some "old") = some "old" :=
  ⟨(save_guardian_state_spec jsonDumps true "9.9" none).1 rfl,
   (save_guardian_state_spec jsonDumps false "9.9" (some "old")).2 rfl⟩

/-- Claim C10: after a successful run the `__main__` block writes the state
file only when the returned `last_ts` is a non-empty string; on a null or
empty `last_ts` the file keeps its previous content. -/
theorem main_save_state_spec (dumps : List (String × JVal) → String)
    (writeOk : Bool) (out : GuardianRunOutput) (fs : Option String) :
    (out.last_ts = none → main_save_state dumps writeOk out fs = fs) ∧
    (out.last_ts = some "" → main_save_state dumps writeOk out fs = fs) ∧
    (∀ ts : String, out.last_ts = some ts → ts ≠ "" → writeOk = true →
      main_save_state dumps writeOk out fs =
        some (dumps [("last_ts", JVal.str ts)])) := by
  refine ⟨?_, ?_, ?_⟩
  · intro h
    simp [main_save_state, h]
  · intro h
    simp [main_save_state, h]
  · intro ts h hne hw
    subst hw
    simp [main_save_state, h, hne, save_guardian_state, save_guardian_state_body]

/-- Concrete run of claim C10's theorem: a null `last_ts` leaves the file
alone, a non-empty one writes it. -/
theorem main_save_state_spec_witness :
    main_save_state jsonDumps true ⟨3, 0, none, "completed"⟩ (some "old") = some "old" ∧
    main_save_state jsonDumps true ⟨3, 1, some "5.5", "completed"⟩ none =
      some (jsonDumps [("last_ts", JVal.str "5.5")]) :=
  ⟨(main_save_state_spec jsonDumps true ⟨3, 0, none, "completed"⟩ (some "old")).1 rfl,
   (main_save_state_spec jsonDumps true ⟨3, 1, some "5.5", "completed"⟩ none).2.2
     "5.5" rfl (by decide) rfl⟩

/-- Claim C8: the four `setdefault` lines fill exactly the missing keys among
`scanned_count`, `alerted_count`, `last_ts`, `safety_status` with the defaults
`0`, `0`, null, `"failed"`; every key already present keeps its value, and
keys outside the four are untouched (this is the dict handed to pydantic
before `safety_status` is finally overwritten to `"completed"`). -/
theorem fillDefaults_spec (d : List (String × JVal)) :
    (∀ (k : String) (v : JVal), lookupKey k d = some v →
      lookupKey k (fillDefaults d) = some v) ∧
    (lookupKey "scanned_count" d = none →
      lookupKey "scanned_count" (fillDefaults d) = some (JVal.num 0)) ∧
    (lookupKey "alerted_count" d = none →
      lookupKey "alerted_count" (fillDefaults d) = some (JVal.num 0)) ∧
    (lookupKey "last_ts" d = none →
      lookupKey "last_ts" (fillDefaults d) = some JVal.null) ∧
    (lookupKey "safety_status" d = none →
      lookupKey "safety_status" (fillDefaults d) = some (JVal.str "failed")) ∧
    (∀ k : String, k ≠ "scanned_count" → k ≠ "alerted_count" → k ≠ "last_ts" →
      k ≠ "safety_status" → lookupKey k (fillDefaults d) = lookupKey k d) := by
  have hsc : lookupKey "scanned_count" (fillDefaults d) =
      some ((lookupKey "scanned_count" d).getD (JVal.num 0)) := by
    rw [fillDefaults, lookupKey_setdefault_other _ _ _ _ (by decide),
      lookupKey_setdefault_other _ _ _ _ (by decide),
      lookupKey_setdefault_other _ _ _ _ (by decide),
      lookupKey_setdefault_self]
  have hac : lookupKey "alerted_count" (fillDefaults d) =
      some ((lookupKey "alerted_count" d).getD (JVal.num 0)) := by
    rw [fillDefaults, lookupKey_setdefault_other _ _ _ _ (by decide),
      lookupKey_setdefault_other _ _ _ _ (by decide),
      lookupKey_setdefault_self,
      lookupKey_setdefault_other _ _ _ _ (by decide)]
  have hlt : lookupKey "last_ts" (fillDefaults d) =
      some ((lookupKey "last_ts" d).getD JVal.null) := by
    rw [fillDefaults, lookupKey_setdefault_other _ _ _ _ (by decide),
      lookupKey_setdefault_self,
      lookupKey_setdefault_other _ _ _ _ (by decide),
      lookupKey_setdefault_other _ _ _ _ (by decide)]
  have hss : lookupKey "safety_status" (fillDefaults d) =
      some ((lookupKey "safety_status" d).getD (JVal.str "failed")) := by
    rw [fillDefaults, lookupKey_setdefault_self,
      lookupKey_setdefault_other _ _ _ _ (by decide),
      lookupKey_setdefault_other _ _ _ _ (by decide),
      lookupKey_setdefault_other _ _ _ _ (by decide)]
  have hother : ∀ k : String, k ≠ "scanned_count" → k ≠ "alerted_count" →
      k ≠ "last_ts" → k ≠ "safety_status" →
      lookupKey k (fillDefaults d) = lookupKey k d := by
    intro k h1 h2 h3 h4
    rw [fillDefaults, lookupKey_setdefault_other _ _ _ _ h4,
      lookupKey_setdefault_other _ _ _ _ h3,
      lookupKey_setdefault_other _ _ _ _ h2,
      lookupKey_setdefault_other _ _ _ _ h1]
  refine ⟨?_, ?_, ?_, ?_, ?_, hother⟩
  · intro k v hv
    by_cases h1 : k = "scanned_count"
    · subst h1; rw [hsc, hv]; rfl
    · by_cases h2 : k = "alerted_count"
      · subst h2; rw [hac, hv]; rfl
      · by_cases h3 : k = "last_ts"
        · subst h3; rw [hlt, hv]; rfl
        · by_cases h4 : k = "safety_status"
          · subst h4; rw [hss, hv]; rfl
          · rw [hother k h1 h2 h3 h4, hv]
  · intro h; rw [hsc, h]; rfl
  · intro h; rw [hac, h]; rfl
  · intro h; rw [hlt, h]; rfl
  · intro h; rw [hss, h]; rfl

/-- Concrete run of claim C8's theorem: a dict carrying only
`scanned_count = 7` keeps that value, gains the `alerted_count` default, and
an unrelated key is untouched. -/
theorem fillDefaults_spec_witness :
    lookupKey "scanned_count" (fillDefaults [("scanned_count", JVal.num 7)]) =
      some (JVal.num 7) ∧
    lookupKey "alerted_count" (fillDefaults [("scanned_count", JVal.num 7)]) =
      some (JVal.num 0) ∧
    lookupKey "extra" (fillDefaults [("scanned_count", JVal.num 7)]) = none :=
  ⟨(fillDefaults_spec [("scanned_count", JVal.num 7)]).1 "scanned_count"
      (JVal.num 7) rfl,
   (fillDefaults_spec [("scanned_count", JVal.num 7)]).2.2.1 rfl,
   (fillDefaults_spec [("scanned_count", JVal.num 7)]).2.2.2.2.2 "extra"
      (by decide) (by decide) (by decide) (by decide)⟩

/-- Claim C1 counterexample: the claim quantifies over dicts of any shape, but
a dict binding `scanned_count` to a non-numeric string makes pydantic's
`model_validate` raise a `ValidationError`, so the validator raises instead of
returning a result with `safety_status = "completed"`. -/
theorem validateShim_ill_typed_raises :
    validateShim (JVal.obj [("scanned_count", JVal.str "x")]) none none =
      Except.error PyErr.validationError := rfl

/-- Claim C1 (amended): whenever the validator returns at all — which it does
for every non-dict raw output, and for every dict pydantic accepts — the
result has all four fields populated with `safety_status = "completed"`; no
input can make the returned `safety_status` be `"failed"`. -/
theorem validateShim_ok_forces_completed :
    (∀ (raw : JVal) (oS oA : Option Int) (r : GuardianRunOutput),
      validateShim raw oS oA = Except.ok r → r.safety_status = "completed") ∧
    (∀ (raw : JVal) (oS oA : Option Int), isDict raw = false →
      validateShim raw oS oA =
        Except.ok ⟨pyOrZero oS, pyOrZero oA, none, "completed"⟩) := by
  constructor
  · intro raw oS oA r h
    rw [validateShim] at h
    rcases hm : model_validate (fillDefaults (coerceRaw raw oS oA)) with e | r0 <;>
      rw [hm] at h <;> simp only [forceCompleted] at h
    · exact absurd h (by simp)
    · simp only [Except.ok.injEq] at h
      rw [← h]
  · intro raw oS oA h
    cases raw <;> first | rfl | simp [isDict] at h

/-- Concrete run of claim C1's amended theorem: a non-dict raw output (null)
with no best-effort attributes yields the all-default completed result. -/
theorem validateShim_ok_forces_completed_witness :
    validateShim JVal.null none none =
      Except.ok ⟨0, 0, none, "completed"⟩ :=
  validateShim_ok_forces_completed.2 JVal.null none none rfl

/-- Claim C3: when the raw final output is not a dict (and the run-outputs
object carries no best-effort count attributes, as Portia's
`PlanRunOutputs` does not), the rebuilt dict falls back to zero counts, null
timestamp and `"failed"` status, and the returned result carries the zero
counts and null timestamp. -/
theorem validateShim_nondict_fallback (raw : JVal) (oS oA : Option Int)
    (hraw : isDict raw = false) (hS : oS = none) (hA : oA = none) :
    fallbackDict oS oA =
      [("scanned_count", JVal.num 0), ("alerted_count", JVal.num 0),
       ("last_ts", JVal.null), ("safety_status", JVal.str "failed")] ∧
    validateShim raw oS oA = Except.ok ⟨0, 0, none, "completed"⟩ := by
  subst hS
  subst hA
  refine ⟨rfl, ?_⟩
  cases raw <;> first | rfl | simp [isDict] at hraw

/-- Concrete run of claim C3's theorem: a bare string raw output. -/
theorem validateShim_nondict_fallback_witness :
    fallbackDict none none =
      [("scanned_count", JVal.num 0), ("alerted_count", JVal.num 0),
       ("last_ts", JVal.null), ("safety_status", JVal.str "failed")] ∧
    validateShim (JVal.str "oops") none none =
      Except.ok ⟨0, 0, none, "completed"⟩ :=
  validateShim_nondict_fallback (JVal.str "oops") none none rfl rfl rfl

/-- Claim C5: with both environment variables set, `run_agent` raises the
plan-failure exception exactly when the terminal state of the plan run —
`wait_for_ready`'s state when `run_plan` ended in `NEED_CLARIFICATION`, the
`run_plan` state otherwise — is not `COMPLETE`; a `COMPLETE` terminal state
never trips this check. -/
theorem run_agent_state_check_iff (loads : String → Option JVal)
    (pe ci : Option String) (fs : Option String)
    (runSt waitSt : PlanRunState) (raw : JVal) (oS oA : Option Int)
    (hpe : pyFalsyEnv pe = false) (hci : pyFalsyEnv ci = false) :
    run_agent loads pe ci fs runSt waitSt raw oS oA =
        Except.error AgentError.planFailed ↔
      resolveRunState runSt waitSt ≠ PlanRunState.COMPLETE := by
  by_cases hst : resolveRunState runSt waitSt = PlanRunState.COMPLETE
  · simp only [run_agent, run_agent_trace, hpe, hci, Bool.or_self, Bool.false_eq_true,
      if_false, hst, ne_eq, not_true_eq_false, iff_false]
    rcases hv : validateShim raw oS oA with e | r <;> simp [hv]
  · simp [run_agent, run_agent_trace, hpe, hci, hst]

/-- Concrete run of claim C5's theorem: a `FAILED` terminal state raises, a
`COMPLETE` one does not. -/
theorem run_agent_state_check_iff_witness :
    run_agent jsonLoads (some "parent@example.com") (some "C12345") none
        PlanRunState.FAILED PlanRunState.COMPLETE JVal.null none none =
      Except.error AgentError.planFailed ∧
    ¬ (run_agent jsonLoads (some "parent@example.com") (some "C12345") none
        PlanRunState.COMPLETE PlanRunState.FAILED JVal.null none none =
      Except.error AgentError.planFailed) :=
  ⟨(run_agent_state_check_iff jsonLoads (some "parent@example.com")
      (some "C12345") none PlanRunState.FAILED PlanRunState.COMPLETE JVal.null
      none none rfl rfl).mpr (by decide),
   fun h =>
    absurd ((run_agent_state_check_iff jsonLoads (some "parent@example.com")
      (some "C12345") none PlanRunState.COMPLETE PlanRunState.FAILED JVal.null
      none none rfl rfl).mp h) (by decide)⟩

/-- Claim C6: an unset or empty `PORTIA_API_KEY` makes the module-top-level
check raise at import time, before any work; an unset or empty
`PARENT_EMAIL` or `SLACK_CHANNEL_ID` makes `run_agent` raise with no external
service call made. -/
theorem env_var_checks (apiKey pe ci : Option String)
    (loads : String → Option JVal) (fs : Option String)
    (runSt waitSt : PlanRunState) (raw : JVal) (oS oA : Option Int) :
    (pyFalsyEnv apiKey = true →
      moduleInit apiKey = Except.error AgentError.missingApiKey) ∧
    (pyFalsyEnv pe = true ∨ pyFalsyEnv ci = true →
      run_agent_trace loads pe ci fs runSt waitSt raw oS oA =
        ([], Except.error AgentError.missingEnv)) := by
  constructor
  · intro h
    simp [moduleInit, h]
  · intro h
    rcases h with h | h <;> simp [run_agent_trace, h]

/-- Concrete run of claim C6's theorem: missing API key; empty parent email
with the channel id set. -/
theorem env_var_checks_witness :
    moduleInit none = Except.error AgentError.missingApiKey ∧
    run_agent_trace jsonLoads (some "") (some "C12345") none
        PlanRunState.COMPLETE PlanRunState.COMPLETE JVal.null none none =
      ([], Except.error AgentError.missingEnv) :=
  ⟨(env_var_checks none (some "") (some "C12345") jsonLoads none
      PlanRunState.COMPLETE PlanRunState.COMPLETE JVal.null none none).1 rfl,
   (env_var_checks none (some "") (some "C12345") jsonLoads none
      PlanRunState.COMPLETE PlanRunState.COMPLETE JVal.null none none).2
      (Or.inl rfl)⟩

/-- Claim C9: with an empty checkpoint timestamp the filter keeps every
message; with a non-empty one that parses, and every message's `"ts"`
parsing, it keeps exactly the messages whose `"ts"` float is strictly greater
than the checkpoint float, in order; each rendered line is
`"[user] text"` with a missing user shown as `"?"` and missing text empty. -/
theorem filter_new_messages_spec {F : Type} [LinearOrder F]
    (pyFloat : String → Option F) (msgs : List Msg) (state_last_ts : String) :
    (state_last_ts = "" →
      filter_new_messages pyFloat msgs state_last_ts =
        Except.ok
          { list := msgs.map (fun m =>
              "[" ++ ((lookupKey "user" m).getD "?") ++ "] " ++
                ((lookupKey "text" m).getD "")),
            str := pyJoin "\n" (msgs.map (fun m =>
              "[" ++ ((lookupKey "user" m).getD "?") ++ "] " ++
                ((lookupKey "text" m).getD ""))),
            new_messages := msgs }) ∧
    (∀ lastF : F, state_last_ts ≠ "" → pyFloat state_last_ts = some lastF →
      (∀ m ∈ msgs, (tsFloat pyFloat m).isSome) →
      filter_new_messages pyFloat msgs state_last_ts =
        Except.ok
          { list := (msgs.filter (newerThan pyFloat lastF)).map (fun m =>
              "[" ++ ((lookupKey "user" m).getD "?") ++ "] " ++
                ((lookupKey "text" m).getD "")),
            str := pyJoin "\n" ((msgs.filter (newerThan pyFloat lastF)).map (fun m =>
              "[" ++ ((lookupKey "user" m).getD "?") ++ "] " ++
                ((lookupKey "text" m).getD ""))),
            new_messages := msgs.filter (newerThan pyFloat lastF) }) := by
  constructor
  · intro h
    subst h
    rfl
  · intro lastF hne hparse hall
    simp only [filter_new_messages, if_neg hne, hparse,
      collectNew_eq_filter pyFloat lastF msgs hall]
    rfl

/-- Concrete run of claim C9's theorem: checkpoint "2" keeps only the message
with timestamp 3, rendered with its user and text, and drops the one with
timestamp 1. -/
theorem filter_new_messages_spec_witness :
    filter_new_messages pyIntOfString
        [[("ts", "3"), ("user", "alice"), ("text", "hi")], [("ts", "1")]] "2" =
      Except.ok
        { list := ["[alice] hi"], str := "[alice] hi",
          new_messages := [[("ts", "3"), ("user", "alice"), ("text", "hi")]] } :=
  (filter_new_messages_spec pyIntOfString
      [[("ts", "3"), ("user", "alice"), ("text", "hi")], [("ts", "1")]] "2").2
    2 (by decide) rfl (by decide)

end Guardian
